import Mathlib

/-!
Verification of the chaat-api repository (a FastAPI service that builds,
deploys and answers for user-configured Telegram bots).

This file is a shallow embedding of the parts of the code relevant to the
frozen claims: the knowledge-base ingestion pipeline and retrieval path
(`src/ai/knowledge.py`), the bot code generator (`src/ai/generator.py`),
the subprocess manager and its router endpoints (`src/ai/manager.py`,
`src/ai/router.py`), the bots table and CRUD helpers (`src/bots/schema.py`,
`src/bots/crud.py`), and the registration / email-verification flow
(`src/auth/api.py`, `src/auth/security.py`, `src/auth/services.py`,
`src/auth/email_service.py`).

External effects (PDF text extraction, the LangChain text splitter, the
OpenAI embeddings and chat APIs, ChromaDB similarity ranking, password
hashing, email delivery, OS process ids) are modelled as oracle parameters
packaged in environment records; the repository's own control flow, state
updates and data transformations are translated statement by statement.
Python exceptions become `Except`, database tables become lists of row
structures, and wall-clock instants become integer timestamps.
-/

namespace Chaat

/-! ## Decimal rendering of integers

Python renders `bot_id` with `str(...)` / f-strings (collection names
`f"bot_{bot_id}_kb"`, chunk ids `f"chunk_{i}"`, manager keys
`str(db_bot.id)`).  `natDecimal` is the standard decimal rendering; its
injectivity is what makes per-bot collection names distinct. -/

def natDecimal (n : Nat) : String :=
  if n = 0 then "0" else ⟨((Nat.digits 10 n).reverse.map Nat.digitChar)⟩


/-! ## ChromaDB model

`knowledge.py` keeps one ChromaDB collection per bot, named
`f"bot_{bot_id}_kb"`.  A collection stores parallel lists of embeddings,
documents and ids (`collection.add(embeddings=..., documents=..., ids=...)`)
plus the `{"bot_id": bot_id}` metadata passed at creation.  Embedding
vectors come from the OpenAI API; their numeric contents never influence
the repository's control flow, so they are modelled as `List Int`. -/

abbrev Emb := List Int

structure Collection where
  embeddings : List Emb
  documents : List String
  ids : List String
  metaBot : Option Nat
deriving Repr, DecidableEq

abbrev ChromaDB := List (String × Collection)

/-- Source: `f"bot_{bot_id}_kb"` — the per-bot collection name. -/
def collName (bot_id : Nat) : String :=
  "bot_" ++ natDecimal bot_id ++ "_kb"

/-- Source: `f"chunk_{i}" for i in range(n)` — the ids stored with the chunks. -/
def chunkIds (n : Nat) : List String :=
  (List.range n).map (fun i => "chunk_" ++ natDecimal i)

/-- Source: `chroma_client.get_collection(name=...)`, as a lookup. -/
def getColl? (db : ChromaDB) (name : String) : Option Collection :=
  (db.find? (fun p => p.1 == name)).map (·.2)

/-- Source: `chroma_client.delete_collection(name=...)`; in
`process_and_store_knowledge_base` the surrounding `try/except: pass`
makes it a no-op when the collection is absent, which the filter is. -/
def chromaDelete (db : ChromaDB) (name : String) : ChromaDB :=
  db.filter (fun p => ¬ p.1 == name)

/-- Source: `chroma_client.create_collection(name=..., metadata={"bot_id": bot_id})`:
fails if the name is taken, otherwise adds an empty collection. -/
def chromaCreate (db : ChromaDB) (name : String) (bot_id : Nat) :
    Except String ChromaDB :=
  if (getColl? db name).isSome then .error "collection already exists"
  else .ok ((name, ⟨[], [], [], some bot_id⟩) :: db)

/-- Source: `collection.add(embeddings=..., documents=..., ids=...)` on the named
collection. -/
def chromaAdd (db : ChromaDB) (name : String) (embs : List Emb)
    (docs ids : List String) : ChromaDB :=
  db.map (fun p =>
    if p.1 == name then
      (p.1, { p.2 with
        embeddings := p.2.embeddings ++ embs
        documents := p.2.documents ++ docs
        ids := p.2.ids ++ ids })
    else p)

/-! ## The bots table as the rest of the code expects it

`src/bots/crud.py` and `src/ai/router.py` read and write the attributes
below on a bot row.  (Claim C4 is about the *declared* columns of
`src/bots/schema.py`, embedded separately further down; `BotRow` is the
row shape the CRUD layer and AI router require.) -/

structure BotRow where
  id : Nat
  owner_id : Nat
  bot_type : String
  bot_token : String
  requirements : String
  generated_code : Option String
  status : String
  is_running : Bool
  pid : Option Nat
  knowledge_base_status : String
deriving Repr, DecidableEq

/-- Source: `crud.get_bot`: `select(Bot).filter(Bot.id == bot_id)` then
`scalar_one_or_none()` — the row with that primary key. -/
def get_bot (db : List BotRow) (bot_id : Nat) : Option BotRow :=
  db.find? (fun b => b.id == bot_id)

/-- Source: `crud.update_bot_knowledge_status`: fetch the row and, when present,
overwrite its `knowledge_base_status`. -/
def update_bot_knowledge_status (db : List BotRow) (bot_id : Nat)
    (st : String) : List BotRow :=
  if (get_bot db bot_id).isSome then
    db.map (fun b => if b.id == bot_id then { b with knowledge_base_status := st } else b)
  else db

/-- Source: `crud.update_bot_pid`: fetch the row and, when present, overwrite `pid`. -/
def update_bot_pid (db : List BotRow) (bot_id : Nat) (pid : Option Nat) :
    List BotRow :=
  if (get_bot db bot_id).isSome then
    db.map (fun b => if b.id == bot_id then { b with pid := pid } else b)
  else db

/-- Source: `crud.update_bot_status`: sets `is_running` and derives
`status = "running" if is_running else "stopped"`. -/
def update_bot_status (db : List BotRow) (bot_id : Nat) (is_running : Bool) :
    List BotRow :=
  db.map (fun b =>
    if b.id == bot_id then
      { b with is_running := is_running
               status := if is_running then "running" else "stopped" }
    else b)

/-- Source: `crud.update_bot_code`: sets `generated_code` and `status = "generated"`. -/
def update_bot_code (db : List BotRow) (bot_id : Nat) (code : String) :
    List BotRow :=
  db.map (fun b =>
    if b.id == bot_id then
      { b with generated_code := some code, status := "generated" }
    else b)

/-! ## The knowledge-base ingestion pipeline

`process_and_store_knowledge_base(bot_id, file_path)` in
`src/ai/knowledge.py`.  The external world is an environment:

* `pages` — what `PyPDF2.PdfReader(...).pages` / `page.extract_text()`
  yields for the uploaded file (an `Except`, since opening or parsing the
  PDF can raise);
* `splitText` — the behaviour of LangChain's
  `RecursiveCharacterTextSplitter(chunk_size, chunk_overlap).split_text`,
  taking the two constructor parameters so the call site's
  `chunk_size=1000, chunk_overlap=100` is visible in the model;
* `embedOf` / `embedOk` — the OpenAI embeddings endpoint, which per its
  API contract returns one vector per input string, or fails as a whole.

An event trace records each externally visible step in execution order. -/

inductive KBEvent where
  | setStatus (bot_id : Nat) (st : String)
  | extractText
  | splitText (size overlap : Nat)
  | deleteColl (name : String)
  | createColl (name : String)
  | embedReq (inputs : List String)
  | collAdd (name : String) (n : Nat)
deriving Repr, DecidableEq

def KBEvent.isExtract : KBEvent → Bool
  | .extractText => true
  | _ => false

def KBEvent.isSplit : KBEvent → Bool
  | .splitText _ _ => true
  | _ => false

def KBEvent.isEmbed : KBEvent → Bool
  | .embedReq _ => true
  | _ => false

def KBEvent.isCollAdd : KBEvent → Bool
  | .collAdd _ _ => true
  | _ => false

structure KBEnv where
  pages : Except String (List String)
  splitText : Nat → Nat → String → List String
  embedOf : String → Emb
  embedOk : Bool

structure KBState where
  bots : List BotRow
  chroma : ChromaDB
deriving Repr

structure KBRun where
  result : Except String Unit
  state : KBState
  events : List KBEvent
deriving Repr

/-- The `try:` body of `process_and_store_knowledge_base`, statement by
statement: set status `"processing"`, build `raw_text` page by page
(each page suffixed `"\n\n"`), raise if the stripped text is empty, split
with `chunk_size=1000, chunk_overlap=100`, raise if no chunks, delete any
existing `bot_{id}_kb` collection, create it afresh, embed all chunks in
one request, and `collection.add` the parallel lists with ids
`chunk_0 .. chunk_{n-1}`. -/
def processInner (env : KBEnv) (s : KBState) (bot_id : Nat) : KBRun :=
  let bots1 := update_bot_knowledge_status s.bots bot_id "processing"
  let ev0 : List KBEvent := [.setStatus bot_id "processing"]
  match env.pages with
  | .error e => ⟨.error e, ⟨bots1, s.chroma⟩, ev0⟩
  | .ok pages =>
    let rawText := String.join (pages.map (fun p => p ++ "\n\n"))
    let ev1 := ev0 ++ [.extractText]
    -- `if not raw_text.strip():` — the stripped text is empty exactly when
    -- every character is whitespace
    if rawText.data.all Char.isWhitespace then
      ⟨.error "No text could be extracted from the PDF", ⟨bots1, s.chroma⟩, ev1⟩
    else
      let chunks := env.splitText 1000 100 rawText
      let ev2 := ev1 ++ [.splitText 1000 100]
      if chunks.isEmpty then
        ⟨.error "No text chunks were created", ⟨bots1, s.chroma⟩, ev2⟩
      else
        let name := collName bot_id
        let chroma1 := chromaDelete s.chroma name
        let ev3 := ev2 ++ [.deleteColl name]
        match chromaCreate chroma1 name bot_id with
        | .error e => ⟨.error e, ⟨bots1, chroma1⟩, ev3⟩
        | .ok chroma2 =>
          let ev4 := ev3 ++ [.createColl name]
          if env.embedOk then
            let embs := chunks.map env.embedOf
            let ev5 := ev4 ++ [.embedReq chunks]
            let ids := chunkIds chunks.length
            let chroma3 := chromaAdd chroma2 name embs chunks ids
            ⟨.ok (), ⟨bots1, chroma3⟩, ev5 ++ [.collAdd name chunks.length]⟩
          else
            ⟨.error "embeddings request failed", ⟨bots1, chroma2⟩, ev4⟩

/-- Source: `process_and_store_knowledge_base`: run the `try:` body; on success the
body's last statement set the status to `"ready"`, on any exception the
`except` block sets it to `"failed"` and re-raises (`raise`). -/
def process_and_store_knowledge_base (env : KBEnv) (s : KBState)
    (bot_id : Nat) : KBRun :=
  let r := processInner env s bot_id
  match r.result with
  | .ok _ =>
    ⟨.ok (), ⟨update_bot_knowledge_status r.state.bots bot_id "ready",
      r.state.chroma⟩, r.events ++ [.setStatus bot_id "ready"]⟩
  | .error e =>
    ⟨.error e, ⟨update_bot_knowledge_status r.state.bots bot_id "failed",
      r.state.chroma⟩, r.events ++ [.setStatus bot_id "failed"]⟩


/-! ## The retrieval path

`query_knowledge_base(bot_id, query, n_results=4)` in `src/ai/knowledge.py`:
look up the per-bot collection (`get_knowledge_base_collection` raises
`ValueError` when it is missing), embed the query, run a similarity query
returning at most `n_results` documents, and return `[]` on any failure.
The store's similarity ordering is an oracle `rank` over the collection's
documents. -/

structure QueryEnv where
  embedOf : String → Emb
  embedOk : Bool
  queryOk : Bool
  rank : Emb → List String → List String

/-- Source: `get_knowledge_base_collection`: `chroma_client.get_collection` or
raise `ValueError("Knowledge base not found for bot ...")`. -/
def get_knowledge_base_collection (chroma : ChromaDB) (bot_id : Nat) :
    Except String Collection :=
  match getColl? chroma (collName bot_id) with
  | some c => .ok c
  | none => .error ("Knowledge base not found for bot " ++ natDecimal bot_id)

/-- The `try:` body of `query_knowledge_base`.  `collection.query` returns
one ranked document list per query embedding (here: exactly one), each at
most `n_results` long; the final line is
`results['documents'][0] if results['documents'] else []`. -/
def queryInner (qenv : QueryEnv) (chroma : ChromaDB) (bot_id : Nat)
    (q : String) (n_results : Nat) : Except String (List String) :=
  match get_knowledge_base_collection chroma bot_id with
  | .error e => .error e
  | .ok coll =>
    if qenv.embedOk then
      let query_embedding := qenv.embedOf q
      if qenv.queryOk then
        let documents := [(qenv.rank query_embedding coll.documents).take n_results]
        .ok (match documents with
             | [] => []
             | d :: _ => d)
      else .error "query request failed"
    else .error "embeddings request failed"

/-- Source: `query_knowledge_base`: the `except` clause logs and returns `[]` on
any error, so the function never raises at its interface. -/
def query_knowledge_base (qenv : QueryEnv) (chroma : ChromaDB) (bot_id : Nat)
    (q : String) (n_results : Nat) : List String :=
  match queryInner qenv chroma bot_id q n_results with
  | .ok docs => docs
  | .error _ => []

/-- Source: `delete_knowledge_base` in `knowledge.py`: delete the per-bot
collection, swallowing any error. -/
def delete_knowledge_base (chroma : ChromaDB) (bot_id : Nat) : ChromaDB :=
  chromaDelete chroma (collName bot_id)

/-! ## Deleting a knowledge-base file

`DELETE /bots/{bot_id}/knowledge/files/{file_id}` in `src/ai/router.py`.
The bot's upload directory is modelled as the list of file names it
contains. -/

/-- Source: `pathlib.Path(...).suffix`: the extension from the rightmost dot of the
name, empty when that dot is the first or last character. -/
def pathSuffix (fname : String) : String :=
  let cs := fname.data
  let tail := cs.reverse.takeWhile (fun c => !(c == '.'))
  if tail.length + 1 < cs.length && 0 < tail.length then
    ⟨'.' :: tail.reverse⟩
  else ""

/-- Source: `file_path.suffix.lower() == ".pdf"`. -/
def isPdfFile (fname : String) : Bool :=
  String.mk ((pathSuffix fname).data.map Char.toLower) == ".pdf"

/-- The `delete_knowledge_base_file` endpoint: ownership and bot-type
checks, file existence and `.pdf` validation, unlink, then — only when no
PDF remains in the directory — delete the ChromaDB collection and set the
status to `"empty"`; otherwise leave status and collection as they are. -/
def delete_knowledge_base_file (bots : List BotRow) (chroma : ChromaDB)
    (files : List String) (bot_id : Nat) (file_id : String) (user_id : Nat) :
    Except (Nat × String) (List BotRow × ChromaDB × List String) :=
  match get_bot bots bot_id with
  | none => .error (404, "Bot not found")
  | some b =>
    if b.owner_id != user_id then .error (403, "Not authorized")
    else if b.bot_type != "qa_knowledge_base" && b.bot_type != "qa_feedback" then
      .error (400, "Knowledge base files are only available for QA bots")
    else if !(files.contains file_id) then .error (404, "File not found")
    else if !(isPdfFile file_id) then .error (400, "Invalid file type")
    else
      let files1 := files.erase file_id
      let remaining := files1.filter isPdfFile
      if remaining.isEmpty then
        .ok (update_bot_knowledge_status bots bot_id "empty",
          delete_knowledge_base chroma bot_id, files1)
      else
        .ok (bots, chroma, files1)

/-! ## The bot code generator

`generate_bot_code` in `src/ai/generator.py` and the
`POST /bots/{bot_id}/generate` endpoint in `src/ai/router.py`.  The chat
model is an oracle from the template-filler inputs to the parsed JSON
configuration (`none` models a `json.JSONDecodeError`); templates are
opaque file contents.  Placeholder substitution uses `str.replace`. -/

inductive GenError where
  | valueError (msg : String)
  | notImplementedError (msg : String)
deriving Repr, DecidableEq

structure GenEnv where
  qaAI : String → String → Option (List (String × String))
  qaFeedbackAI : String → String → Option (List (String × String))
  simpleAI : String → Option (List (String × String))
  qaTemplate : String
  qaFeedbackTemplate : String
  simpleChatTemplate : String
  kbPreview : String

/-- Source: `dict` key access returning `None` when absent. -/
def lookupKey (d : List (String × String)) (k : String) : Option String :=
  (d.find? (fun p => p.1 == k)).map (·.2)

/-- Source: `ai_config.get(key, default)`. -/
def getKeyD (d : List (String × String)) (k dflt : String) : String :=
  (lookupKey d k).getD dflt

def qaStartDefault : String :=
  "Привет! Я ваш помощник. Задавайте вопросы!"

def qaNotFoundDefault : String :=
  "Извините, я не нашел информации по вашему вопросу."

def qaRagDefault : String :=
  "Отвечай на вопросы пользователя на основе предоставленного контекста. Если информации нет в контексте, скажи что не можешь найти эту информацию."

def qaFbStartDefault : String :=
  "Добро пожаловать! 🤖 Я могу ответить на ваши вопросы и принять ваш отзыв. Выберите действие в меню ниже."

def qaFbWelcomeDefault : String :=
  "💬 Мы ценим ваше мнение! Ваш отзыв поможет нам улучшить наш сервис."

def qaFbThanksDefault : String :=
  "🙏 Спасибо за ваш отзыв! Мы обязательно его рассмотрим и постараемся стать лучше."

/-- Source: `_generate_qa_bot_from_template`: whether the AI response parses
(values read with `.get(key, default)`) or not (the `except` fallback
fills the same defaults), the template is filled and returned — both
paths produce code, which `getD []` on the parsed config captures. -/
def generate_qa_bot_from_template (env : GenEnv) (bot_id : Nat)
    (req : String) : String :=
  let d := (env.qaAI req env.kbPreview).getD []
  (((env.qaTemplate.replace "\x7b\x7bBOT_ID\x7d\x7d" (natDecimal bot_id)).replace
      "\x7b\x7bSTART_MESSAGE\x7d\x7d" (getKeyD d "start_message" qaStartDefault)).replace
      "\x7b\x7bNOT_FOUND_MESSAGE\x7d\x7d" (getKeyD d "not_found_message" qaNotFoundDefault)).replace
      "\x7b\x7bRAG_SYSTEM_PROMPT\x7d\x7d" (getKeyD d "rag_system_prompt" qaRagDefault)

/-- Source: `_generate_qa_feedback_bot_from_template`, same fallback structure. -/
def generate_qa_feedback_bot_from_template (env : GenEnv) (bot_id : Nat)
    (req : String) : String :=
  let d := (env.qaFeedbackAI req env.kbPreview).getD []
  (((((env.qaFeedbackTemplate.replace "\x7b\x7bBOT_ID\x7d\x7d" (natDecimal bot_id)).replace
      "\x7b\x7bSTART_MESSAGE\x7d\x7d" (getKeyD d "start_message" qaFbStartDefault)).replace
      "\x7b\x7bNOT_FOUND_MESSAGE\x7d\x7d" (getKeyD d "not_found_message" qaNotFoundDefault)).replace
      "\x7b\x7bRAG_SYSTEM_PROMPT\x7d\x7d" (getKeyD d "rag_system_prompt" qaRagDefault)).replace
      "\x7b\x7bFEEDBACK_WELCOME_MESSAGE\x7d\x7d" (getKeyD d "feedback_welcome_message" qaFbWelcomeDefault)).replace
      "\x7b\x7bFEEDBACK_THANKS_MESSAGE\x7d\x7d" (getKeyD d "feedback_thanks_message" qaFbThanksDefault)

/-- Source: `_generate_simple_chat_from_template`: here the config keys are read
with `ai_config[...]`, so a parse failure or a missing key raises
`KeyError`/`JSONDecodeError`, which the handler converts to
`ValueError("Failed to generate bot configuration from AI.")`. -/
def generate_simple_chat_from_template (env : GenEnv) (bot_id : Nat)
    (req : String) : Except GenError String :=
  match env.simpleAI req with
  | none => .error (.valueError "Failed to generate bot configuration from AI.")
  | some d =>
    match lookupKey d "start_message", lookupKey d "chat_system_prompt" with
    | some sm, some sp =>
      .ok (((env.simpleChatTemplate.replace "\x7b\x7bBOT_ID\x7d\x7d" (natDecimal bot_id)).replace
          "\x7b\x7bSTART_MESSAGE\x7d\x7d" sm).replace
          "\x7b\x7bCHAT_SYSTEM_PROMPT\x7d\x7d" sp)
    | _, _ => .error (.valueError "Failed to generate bot configuration from AI.")

/-- Source: `generate_bot_code`: the Q&A variants demand
`knowledge_base_status == "ready"` (else `ValueError`), `simple_chat` has
no knowledge-base precondition, every other `bot_type` raises
`NotImplementedError`. -/
def generate_bot_code (env : GenEnv) (bot_id : Nat)
    (bot_type requirements kbStatus : String) : Except GenError String :=
  if bot_type == "qa_knowledge_base" then
    if kbStatus != "ready" then
      .error (.valueError "Cannot generate QA bot: The knowledge base is not ready.")
    else .ok (generate_qa_bot_from_template env bot_id requirements)
  else if bot_type == "qa_feedback" then
    if kbStatus != "ready" then
      .error (.valueError "Cannot generate QA + Feedback bot: The knowledge base is not ready.")
    else .ok (generate_qa_feedback_bot_from_template env bot_id requirements)
  else if bot_type == "simple_chat" then
    generate_simple_chat_from_template env bot_id requirements
  else
    .error (.notImplementedError ("Bot type " ++ bot_type ++ " does not have a generator."))

/-- The `POST /bots/{bot_id}/generate` endpoint: 404/403 checks, then
`generate_bot_code`; `ValueError` and `NotImplementedError` both become
`HTTPException(status_code=400, detail=str(e))`; on success the code is
stored with `update_bot_code` and the updated row returned. -/
def generate_bot_code_endpoint (env : GenEnv) (bots : List BotRow)
    (bot_id user_id : Nat) : Except (Nat × String) (List BotRow × BotRow) :=
  match get_bot bots bot_id with
  | none => .error (404, "Bot not found")
  | some b =>
    if b.owner_id != user_id then .error (403, "Not authorized")
    else
      match generate_bot_code env b.id b.bot_type b.requirements
          b.knowledge_base_status with
      | .ok code =>
        .ok (update_bot_code bots bot_id code,
          { b with generated_code := some code, status := "generated" })
      | .error (.valueError m) => .error (400, m)
      | .error (.notImplementedError m) => .error (400, m)

/-! ## The bot process manager and deploy/stop endpoints

`BotManager` in `src/ai/manager.py` keys `running_processes` by the bot id
as a *string* (`bot_manager.deploy_bot(bot_id=str(db_bot.id), ...)`), while
the deploy endpoint passes the stored integer `db_bot.pid` to `stop_bot`'s
`bot_id` parameter.  `PyKey` keeps Python's distinction between the two
key types (an `int` never equals a `str` under `==`).  `terminated`
records the pids of subprocesses actually terminated. -/

inductive PyKey where
  | s (v : String)
  | i (v : Nat)
deriving Repr, DecidableEq

instance : BEq PyKey := ⟨fun a b => decide (a = b)⟩

structure ManagerSt where
  running : List (PyKey × Nat)
  terminated : List Nat
deriving Repr, DecidableEq

/-- Source: `BotManager.stop_bot(bot_id)`: when the key is present, terminate the
process and drop the entry; otherwise print and do nothing. -/
def manager_stop_bot (ms : ManagerSt) (key : PyKey) : ManagerSt :=
  match ms.running.find? (fun p => p.1 == key) with
  | some pr =>
    ⟨ms.running.filter (fun p => !(p.1 == key)), ms.terminated ++ [pr.2]⟩
  | none => ms

/-- Source: `BotManager.deploy_bot(bot_id, bot_code, bot_token)`: stop a previous
instance under the same key, write `bot.py`, spawn the subprocess (its OS
pid is the oracle `newPid`), record it under the string key — and return;
the function has no `return` statement, so its value is Python's `None`,
modelled as the `Option Nat` component `none`. -/
def manager_deploy_bot (ms : ManagerSt) (bot_id : String) (newPid : Nat) :
    Option Nat × ManagerSt :=
  let ms1 := if (ms.running.find? (fun p => p.1 == PyKey.s bot_id)).isSome
             then manager_stop_bot ms (PyKey.s bot_id) else ms
  (none, ⟨(PyKey.s bot_id, newPid) :: ms1.running, ms1.terminated⟩)

/-- The `POST /bots/{bot_id}/deploy` endpoint: 404/403/no-code checks,
`stop_bot(db_bot.pid)` for a previously stored pid (an `int` passed where
the manager expects its string key), `deploy_bot(...)` whose `None` result
is stored via `update_bot_pid`, then `update_bot_status(..., True)`. -/
def deploy_bot_endpoint (bots : List BotRow) (ms : ManagerSt)
    (bot_id user_id newPid : Nat) :
    Except (Nat × String) (List BotRow × ManagerSt) :=
  match get_bot bots bot_id with
  | none => .error (404, "Bot not found")
  | some b =>
    if b.owner_id != user_id then .error (403, "Not enough permissions")
    else
      match b.generated_code with
      | none => .error (400, "Bot code has not been generated yet.")
      | some _ =>
        let ms1 := match b.pid with
                   | some p => if p != 0 then manager_stop_bot ms (PyKey.i p)
                               else ms
                   | none => ms
        let r := manager_deploy_bot ms1 (natDecimal b.id) newPid
        let bots1 := update_bot_pid bots b.id r.1
        let bots2 := update_bot_status bots1 b.id true
        .ok (bots2, r.2)

/-- The `POST /bots/{bot_id}/stop` endpoint: after the 404/403 checks the
handler calls `bot_manager.stop_bot(pid=db_bot.pid)`, but
`BotManager.stop_bot` declares no parameter named `pid`, so the call
raises `TypeError` before touching the manager or the row; FastAPI turns
the uncaught exception into a 500 response. -/
def stop_bot_endpoint (bots : List BotRow) (_ms : ManagerSt)
    (bot_id user_id : Nat) :
    Except (Nat × String) (List BotRow × ManagerSt) :=
  match get_bot bots bot_id with
  | none => .error (404, "Bot not found")
  | some b =>
    if b.owner_id != user_id then .error (403, "Not enough permissions")
    else .error (500, "TypeError: stop_bot got an unexpected keyword argument pid")

/-! ## The declared columns of the bots table

`class Bot(Base)` in `src/bots/schema.py` (lines 16–34) — the only ORM
mapping of `__tablename__ = "bots"` in the repository. -/

def botTableColumns : List String :=
  ["id", "name", "description", "bot_name", "bot_greeting", "bot_tonality",
   "link", "owner_id"]

/-- Bot-row attributes that `src/bots/crud.py` reads or writes
(`get_bot_by_token`, `update_bot`, `update_bot_status`, `update_bot_code`,
`update_bot_pid`, `update_bot_knowledge_status`). -/
def crudBotAttributes : List String :=
  ["bot_token", "requirements", "status", "generated_code", "is_running",
   "pid", "knowledge_base_status"]

/-! ## Registration, rate limiting and email verification

`src/auth/security.py`, `src/auth/services.py`, `src/auth/email_service.py`
and the `register` handler in `src/auth/api.py`.  Timestamps are minutes
as integers; bcrypt, token generation and SMTP delivery are oracles. -/

structure AuthUser where
  id : Nat
  email : String
  hashed_password : String
  full_name : Option String
  is_verified : Bool
  is_active : Bool
deriving Repr, DecidableEq

structure PendingUserRow where
  id : Nat
  email : String
  hashed_password : String
  full_name : Option String
  expires_at : Int
  ip_address : Option String
deriving Repr, DecidableEq

structure EmailVerificationRow where
  id : Nat
  user_id : Option Nat
  pending_user_id : Option Nat
  verification_token : String
  expires_at : Int
  is_used : Bool
deriving Repr, DecidableEq

structure RateLimitRow where
  id : Nat
  ip_address : String
  endpoint_name : String
  request_count : Nat
  window_start : Int
  last_request : Int
deriving Repr, DecidableEq

structure AuthState where
  users : List AuthUser
  pending : List PendingUserRow
  verifications : List EmailVerificationRow
  rateLimits : List RateLimitRow
deriving Repr, DecidableEq

/-- Source: `EMAIL_VERIFICATION_EXPIRE_HOURS = 24` (the config default), in
minutes. -/
def EMAIL_VERIFICATION_EXPIRE_MINUTES : Int := 24 * 60

/-- Source: `RATE_LIMIT_CONFIG` in `src/auth/security.py`: (max_requests,
window_minutes) per endpoint. -/
def RATE_LIMIT_CONFIG (ep : String) : Option (Nat × Int) :=
  if ep == "register" then some (3, 60)
  else if ep == "send_verification" then some (5, 30)
  else if ep == "verify_email" then some (10, 15)
  else none

/-- Source: `check_rate_limit`: no record in the window → create one with count 1
and allow; count at the limit → reject; otherwise increment and allow. -/
def check_rate_limit (now : Int) (rls : List RateLimitRow) (ip ep : String)
    (freshId : Nat) : (Bool × String) × List RateLimitRow :=
  match RATE_LIMIT_CONFIG ep with
  | none => ((true, ""), rls)
  | some (maxRequests, windowMinutes) =>
    let windowStart := now - windowMinutes
    match rls.find? (fun r => r.ip_address == ip && (r.endpoint_name == ep
        && decide (windowStart < r.window_start))) with
    | none => ((true, ""), rls ++ [⟨freshId, ip, ep, 1, now, now⟩])
    | some r =>
      if maxRequests ≤ r.request_count then
        ((false, "Rate limit exceeded, try again later"), rls)
      else
        ((true, ""), rls.map (fun r0 =>
          if r0.id == r.id then
            { r0 with request_count := r0.request_count + 1,
                      last_request := now }
          else r0))

/-- Source: `cleanup_expired_pending_users`: delete pending users with
`expires_at < now`. -/
def cleanup_expired_pending_users (now : Int)
    (pending : List PendingUserRow) : List PendingUserRow :=
  pending.filter (fun p => !decide (p.expires_at < now))

/-- Source: `cleanup_rate_limits`: delete records whose window started more than
24 hours ago. -/
def cleanup_rate_limits (now : Int) (rls : List RateLimitRow) :
    List RateLimitRow :=
  rls.filter (fun r => !decide (r.window_start < now - 24 * 60))

structure RegEnv where
  hash : String → String
  token : String
  emailOk : Bool
  freshPendingId : Nat
  freshVerificationId : Nat

structure RegisterIn where
  email : String
  password : String
  full_name : Option String
deriving Repr, DecidableEq

def get_user_by_email (users : List AuthUser) (email : String) :
    Option AuthUser :=
  users.find? (fun u => u.email == email)

def get_pending_user_by_email (pending : List PendingUserRow)
    (email : String) : Option PendingUserRow :=
  pending.find? (fun p => p.email == email)

/-- Source: `create_pending_user` in `src/auth/services.py`: hash the password and
insert a pending row expiring in `EMAIL_VERIFICATION_EXPIRE_HOURS * 2`. -/
def create_pending_user (env : RegEnv) (now : Int)
    (pending : List PendingUserRow) (u : RegisterIn) :
    PendingUserRow × List PendingUserRow :=
  let row : PendingUserRow :=
    ⟨env.freshPendingId, u.email, env.hash u.password, u.full_name,
      now + EMAIL_VERIFICATION_EXPIRE_MINUTES * 2, none⟩
  (row, pending ++ [row])

/-- Source: `send_verification_email_for_pending_user`: create a verification row
tied to the pending user, send the email; on failure the row is deleted
again and `None` returned. -/
def send_verification_email_for_pending_user (env : RegEnv) (now : Int)
    (verifs : List EmailVerificationRow) (p : PendingUserRow) :
    Option EmailVerificationRow × List EmailVerificationRow :=
  let v : EmailVerificationRow :=
    ⟨env.freshVerificationId, none, some p.id, env.token,
      now + EMAIL_VERIFICATION_EXPIRE_MINUTES, false⟩
  if env.emailOk then (some v, verifs ++ [v]) else (none, verifs)

/-- The `POST /register` handler: cleanup passes, *no* security validation
(the `validate_registration_security` call — and with it the
`check_rate_limit` consultation — is commented out in `src/auth/api.py`),
409-style 422 checks against both user tables, insertion of the pending
row with its IP, and the verification email; an email failure deletes the
pending row again and yields 500. -/
def register (env : RegEnv) (now : Int) (st : AuthState)
    (user_in : RegisterIn) (ip : String) :
    Except (Nat × String) Unit × AuthState :=
  let st1 : AuthState :=
    { st with pending := cleanup_expired_pending_users now st.pending,
              rateLimits := cleanup_rate_limits now st.rateLimits }
  match get_user_by_email st1.users user_in.email with
  | some _ => (.error (422, "Email address is already registered"), st1)
  | none =>
    match get_pending_user_by_email st1.pending user_in.email with
    | some _ => (.error (422, "Email address is already registered"), st1)
    | none =>
      let pr := create_pending_user env now st1.pending user_in
      -- `pending_user.ip_address = ip_address; await db.commit()` mutates
      -- the row just inserted at the end of the table
      let row := { pr.1 with ip_address := some ip }
      let pending2 := st1.pending ++ [row]
      let sent := send_verification_email_for_pending_user env now
        st1.verifications row
      match sent.1 with
      | none =>
        (.error (500, "Could not send the verification email"),
          { st1 with
              pending := pending2.filter (fun p => !(p.id == row.id)),
              verifications := sent.2 })
      | some _ =>
        (.ok (), { st1 with pending := pending2, verifications := sent.2 })

/-- Source: `verify_email_token` in `src/auth/email_service.py`: first branch —
an unused, unexpired token tied to a pending user creates the confirmed
`User` (with `is_verified=True`), marks the token used, links it to the
new user and deletes the pending row; second branch — a token tied to an
existing user marks that user verified.  Everything else fails without
touching the state. -/
def verify_email_token (now : Int) (freshUserId : Nat) (st : AuthState)
    (token : String) : (Bool × Option AuthUser) × AuthState :=
  match st.verifications.find? (fun v => v.verification_token == token
      && (!v.is_used && (decide (now < v.expires_at)
      && v.pending_user_id.isSome))) with
  | some v =>
    match st.pending.find? (fun p => some p.id == v.pending_user_id) with
    | none => ((false, none), st)
    | some p =>
      match st.users.find? (fun u => u.email == p.email) with
      | some _ =>
        ((false, none),
          { st with
              verifications := st.verifications.filter
                (fun v0 => !(v0.id == v.id)),
              pending := st.pending.filter (fun p0 => !(p0.id == p.id)) })
      | none =>
        let user : AuthUser :=
          ⟨freshUserId, p.email, p.hashed_password, p.full_name, true, true⟩
        ((true, some user),
          { st with
              users := st.users ++ [user],
              verifications := st.verifications.map (fun v0 =>
                if v0.id == v.id then
                  { v0 with is_used := true, user_id := some freshUserId }
                else v0),
              pending := st.pending.filter (fun p0 => !(p0.id == p.id)) })
  | none =>
    match st.verifications.find? (fun v => v.verification_token == token
        && (!v.is_used && (decide (now < v.expires_at)
        && v.user_id.isSome))) with
    | none => ((false, none), st)
    | some v =>
      match st.users.find? (fun u => some u.id == v.user_id) with
      | none => ((false, none), st)
      | some u =>
        if u.is_verified then ((true, some u), st)
        else
          ((true, some { u with is_verified := true }),
            { st with
                verifications := st.verifications.map (fun v0 =>
                  if v0.id == v.id then { v0 with is_used := true } else v0),
                users := st.users.map (fun u0 =>
                  if u0.id == u.id then { u0 with is_verified := true }
                  else u0) })

/-! ## Theorems

The definitions above embed the code; everything below proves properties
of those definitions. -/

theorem digitChar_inj_below_ten :
    ∀ x, x < 10 → ∀ y, y < 10 → Nat.digitChar x = Nat.digitChar y → x = y := by
  decide

theorem map_digitChar_inj :
    ∀ (l₁ l₂ : List Nat), (∀ x ∈ l₁, x < 10) → (∀ x ∈ l₂, x < 10) →
      l₁.map Nat.digitChar = l₂.map Nat.digitChar → l₁ = l₂ := by
  intro l₁
  induction l₁ with
  | nil => intro l₂ _ _ h; cases l₂ <;> simp_all
  | cons a t ih =>
    intro l₂ h1 h2 h
    cases l₂ with
    | nil => simp_all
    | cons b t2 =>
      simp only [List.map_cons, List.cons.injEq] at h
      have ha : a < 10 := h1 a (by simp)
      have hb : b < 10 := h2 b (by simp)
      have hab : a = b := digitChar_inj_below_ten a ha b hb h.1
      have ht : t = t2 := ih t2 (fun x hx => h1 x (by simp [hx]))
        (fun x hx => h2 x (by simp [hx])) h.2
      rw [hab, ht]

theorem natDecimal_inj : ∀ {a b : Nat}, natDecimal a = natDecimal b → a = b := by
  intro a b h
  unfold natDecimal at h
  by_cases ha : a = 0 <;> by_cases hb : b = 0 <;> simp [ha, hb] at h ⊢
  · -- a = 0, b ≠ 0 : "0" = rendering of b forces digits 10 b = [0]
    have hd : (Nat.digits 10 b).reverse.map Nat.digitChar = ['0'] := by
      have := congrArg String.data h
      simpa using this.symm
    have hrev : Nat.digits 10 b = [0] := by
      have h0 : (Nat.digits 10 b).reverse = [0] := by
        apply map_digitChar_inj
        · intro x hx
          exact Nat.digits_lt_base (by norm_num) (List.mem_reverse.mp hx)
        · intro x hx; simp at hx; simp [hx]
        · simpa using hd
      have := congrArg List.reverse h0
      simpa using this
    have : b = 0 := by
      have := Nat.ofDigits_digits 10 b
      rw [hrev] at this
      simpa [Nat.ofDigits] using this.symm
    exact absurd this hb
  · -- a ≠ 0, b = 0 : symmetric
    have hd : (Nat.digits 10 a).reverse.map Nat.digitChar = ['0'] := by
      have := congrArg String.data h
      simpa using this
    have hrev : Nat.digits 10 a = [0] := by
      have h0 : (Nat.digits 10 a).reverse = [0] := by
        apply map_digitChar_inj
        · intro x hx
          exact Nat.digits_lt_base (by norm_num) (List.mem_reverse.mp hx)
        · intro x hx; simp at hx; simp [hx]
        · simpa using hd
      have := congrArg List.reverse h0
      simpa using this
    have : a = 0 := by
      have := Nat.ofDigits_digits 10 a
      rw [hrev] at this
      simpa [Nat.ofDigits] using this.symm
    exact absurd this ha
  · -- both nonzero
    have hdata := congrArg String.data h
    simp only [String.data] at hdata
    have hmap : (Nat.digits 10 a).map Nat.digitChar
        = (Nat.digits 10 b).map Nat.digitChar := by
      have := congrArg List.reverse hdata
      simpa using this
    have hdig : Nat.digits 10 a = Nat.digits 10 b := by
      apply map_digitChar_inj _ _ _ _ hmap
      · intro x hx
        exact Nat.digits_lt_base (by norm_num) hx
      · intro x hx
        exact Nat.digits_lt_base (by norm_num) hx
    exact Nat.digits_inj_iff.mp hdig
theorem collName_inj : ∀ {a b : Nat}, collName a = collName b → a = b := by
  intro a b h
  unfold collName at h
  have hdata := congrArg String.data h
  simp only [String.data_append] at hdata
  have h1 : (natDecimal a).data ++ "_kb".data
      = (natDecimal b).data ++ "_kb".data :=
    @List.append_cancel_left _ ("bot_".data) _ _ hdata
  have h2 : (natDecimal a).data = (natDecimal b).data :=
    @List.append_cancel_right _ _ ("_kb".data) _ h1
  exact natDecimal_inj (by
    cases hna : natDecimal a
    cases hnb : natDecimal b
    simp_all)

theorem getColl?_chromaDelete_self (db : ChromaDB) (name : String) :
    getColl? (chromaDelete db name) name = none := by
  induction db with
  | nil => rfl
  | cons p t ih =>
    by_cases hp : p.1 = name
    · simpa [chromaDelete, List.filter_cons, hp] using ih
    · simpa [chromaDelete, List.filter_cons, getColl?, List.find?_cons, hp]
        using ih

theorem getColl?_chromaDelete_other (db : ChromaDB) (name other : String)
    (h : other ≠ name) :
    getColl? (chromaDelete db name) other = getColl? db other := by
  have h2 : ¬ name = other := fun he => h he.symm
  induction db with
  | nil => rfl
  | cons p t ih =>
    by_cases hp : p.1 = name
    · have hpo : p.1 ≠ other := by rw [hp]; exact h2
      simpa [chromaDelete, List.filter_cons, getColl?, List.find?_cons, hp,
        hpo, h2, h] using ih
    · by_cases hpo : p.1 = other
      · simp [chromaDelete, List.filter_cons, getColl?, List.find?_cons, hp,
          hpo, h2, h]
      · simpa [chromaDelete, List.filter_cons, getColl?, List.find?_cons, hp,
          hpo, h2, h] using ih

theorem getColl?_chromaAdd_other (db : ChromaDB) (name other : String)
    (embs : List Emb) (docs ids : List String) (h : other ≠ name) :
    getColl? (chromaAdd db name embs docs ids) other = getColl? db other := by
  have h2 : ¬ name = other := fun he => h he.symm
  induction db with
  | nil => rfl
  | cons p t ih =>
    by_cases hp : p.1 = name
    · have hpo : p.1 ≠ other := by rw [hp]; exact h2
      simpa [chromaAdd, List.map_cons, getColl?, List.find?_cons, hp, hpo, h2, h]
        using ih
    · by_cases hpo : p.1 = other
      · simp [chromaAdd, List.map_cons, getColl?, List.find?_cons, hp, hpo, h2, h]
      · simpa [chromaAdd, List.map_cons, getColl?, List.find?_cons, hp, hpo, h2, h]
          using ih

theorem get_bot_update_knowledge_status_self (db : List BotRow) (bot_id : Nat)
    (st : String) (h : (get_bot db bot_id).isSome) :
    get_bot (update_bot_knowledge_status db bot_id st) bot_id
      = (get_bot db bot_id).map (fun b => { b with knowledge_base_status := st }) := by
  unfold update_bot_knowledge_status
  rw [if_pos h]
  induction db with
  | nil => rfl
  | cons b t ih =>
    by_cases hb : b.id == bot_id
    · simp [get_bot, List.find?, hb]
    · by_cases ht : (get_bot t bot_id).isSome
      · have := ih (by simpa [get_bot, List.find?, hb] using h)
        simpa [get_bot, List.find?, hb] using this
      · exfalso
        simp only [get_bot, List.find?, hb] at h
        exact ht h

theorem get_bot_update_knowledge_status_isSome (db : List BotRow) (bot_id : Nat)
    (st : String) (h : (get_bot db bot_id).isSome) :
    (get_bot (update_bot_knowledge_status db bot_id st) bot_id).isSome := by
  rw [get_bot_update_knowledge_status_self db bot_id st h]
  simpa using h

theorem processInner_bots (env : KBEnv) (s : KBState) (bot_id : Nat) :
    (processInner env s bot_id).state.bots
      = update_bot_knowledge_status s.bots bot_id "processing" := by
  unfold processInner
  cases env.pages
  · rfl
  · dsimp only
    split
    · rfl
    · split
      · rfl
      · split
        · rfl
        · split <;> rfl

theorem process_result_eq (env : KBEnv) (s : KBState) (bot_id : Nat) :
    (process_and_store_knowledge_base env s bot_id).result
      = (processInner env s bot_id).result := by
  unfold process_and_store_knowledge_base
  cases h : (processInner env s bot_id).result <;> simp [h]

theorem knowledge_status_after_update (db : List BotRow) (bot_id : Nat)
    (st : String) (h : (get_bot db bot_id).isSome) :
    (get_bot (update_bot_knowledge_status db bot_id st) bot_id).map
      BotRow.knowledge_base_status = some st := by
  rw [get_bot_update_knowledge_status_self db bot_id st h]
  obtain ⟨b, hb⟩ := Option.isSome_iff_exists.mp h
  simp [hb]

theorem processInner_counts (env : KBEnv) (s : KBState) (bot_id : Nat) :
    (processInner env s bot_id).events.countP KBEvent.isExtract ≤ 1
    ∧ (processInner env s bot_id).events.countP KBEvent.isSplit ≤ 1
    ∧ (processInner env s bot_id).events.countP KBEvent.isEmbed ≤ 1
    ∧ (processInner env s bot_id).events.countP KBEvent.isCollAdd ≤ 1 := by
  unfold processInner
  cases env.pages
  · refine ⟨?_, ?_, ?_, ?_⟩ <;>
      simp [List.countP_append, List.countP_cons, List.countP_nil,
        KBEvent.isExtract, KBEvent.isSplit, KBEvent.isEmbed, KBEvent.isCollAdd]
  · dsimp only
    split
    · refine ⟨?_, ?_, ?_, ?_⟩ <;>
        simp [List.countP_append, List.countP_cons, List.countP_nil,
          KBEvent.isExtract, KBEvent.isSplit, KBEvent.isEmbed, KBEvent.isCollAdd]
    · split
      · refine ⟨?_, ?_, ?_, ?_⟩ <;>
          simp [List.countP_append, List.countP_cons, List.countP_nil,
            KBEvent.isExtract, KBEvent.isSplit, KBEvent.isEmbed, KBEvent.isCollAdd]
      · split
        · refine ⟨?_, ?_, ?_, ?_⟩ <;>
            simp [List.countP_append, List.countP_cons, List.countP_nil,
              KBEvent.isExtract, KBEvent.isSplit, KBEvent.isEmbed, KBEvent.isCollAdd]
        · split
          · refine ⟨?_, ?_, ?_, ?_⟩ <;>
              simp [List.countP_append, List.countP_cons, List.countP_nil,
                KBEvent.isExtract, KBEvent.isSplit, KBEvent.isEmbed, KBEvent.isCollAdd]
          · refine ⟨?_, ?_, ?_, ?_⟩ <;>
              simp [List.countP_append, List.countP_cons, List.countP_nil,
                KBEvent.isExtract, KBEvent.isSplit, KBEvent.isEmbed, KBEvent.isCollAdd]

/-- C1: if any stage of `process_and_store_knowledge_base` raises (text
extraction yielding no text, chunking yielding no chunks, the embeddings
request, or the vector-store write), the bot's `knowledge_base_status`
ends up `"failed"` and the same exception is re-raised; if every stage
succeeds the status ends up `"ready"`; and no stage is ever retried (each
external step occurs at most once in the event trace). -/
theorem kb_process_failure_failed_success_ready
    (env : KBEnv) (s : KBState) (bot_id : Nat)
    (hbot : (get_bot s.bots bot_id).isSome) :
    (∀ e, (process_and_store_knowledge_base env s bot_id).result = .error e →
      ((get_bot (process_and_store_knowledge_base env s bot_id).state.bots
          bot_id).map BotRow.knowledge_base_status = some "failed"
        ∧ (processInner env s bot_id).result = .error e))
    ∧ ((process_and_store_knowledge_base env s bot_id).result = .ok () →
      (get_bot (process_and_store_knowledge_base env s bot_id).state.bots
          bot_id).map BotRow.knowledge_base_status = some "ready")
    ∧ ((process_and_store_knowledge_base env s bot_id).events.countP
          KBEvent.isExtract ≤ 1
        ∧ (process_and_store_knowledge_base env s bot_id).events.countP
          KBEvent.isSplit ≤ 1
        ∧ (process_and_store_knowledge_base env s bot_id).events.countP
          KBEvent.isEmbed ≤ 1
        ∧ (process_and_store_knowledge_base env s bot_id).events.countP
          KBEvent.isCollAdd ≤ 1) := by
  have hb1 : (get_bot (update_bot_knowledge_status s.bots bot_id "processing")
      bot_id).isSome :=
    get_bot_update_knowledge_status_isSome s.bots bot_id "processing" hbot
  have hbots := processInner_bots env s bot_id
  have hcounts := processInner_counts env s bot_id
  refine ⟨?_, ?_, ?_⟩
  · intro e he
    have hres : (processInner env s bot_id).result = .error e := by
      rw [← process_result_eq]; exact he
    refine ⟨?_, hres⟩
    simp only [process_and_store_knowledge_base, hres]
    rw [hbots]
    exact knowledge_status_after_update _ bot_id "failed" hb1
  · intro he
    have hres : (processInner env s bot_id).result = .ok () := by
      rw [← process_result_eq]; exact he
    simp only [process_and_store_knowledge_base, hres]
    rw [hbots]
    exact knowledge_status_after_update _ bot_id "ready" hb1
  · obtain ⟨h1, h2, h3, h4⟩ := hcounts
    cases hres : (processInner env s bot_id).result <;>
      simp only [process_and_store_knowledge_base, hres] <;>
      refine ⟨?_, ?_, ?_, ?_⟩ <;>
      rw [List.countP_append] <;>
      simp [List.countP_cons, List.countP_nil, KBEvent.isExtract,
        KBEvent.isSplit, KBEvent.isEmbed, KBEvent.isCollAdd] <;>
      omega

/-- Witness for C1 at a concrete environment and state: a failing
extraction flips the status to `"failed"` and re-raises, and the run
retried nothing. -/
theorem kb_process_failure_failed_success_ready_witness :
    (get_bot (process_and_store_knowledge_base
        ⟨.error "boom", fun _ _ t => [t], fun _ => [0], true⟩
        ⟨[⟨1, 2, "qa_knowledge_base", "tok", "req", none, "created", false,
            none, "processing"⟩], []⟩ 1).state.bots 1).map
      BotRow.knowledge_base_status = some "failed"
    ∧ (processInner
        ⟨.error "boom", fun _ _ t => [t], fun _ => [0], true⟩
        ⟨[⟨1, 2, "qa_knowledge_base", "tok", "req", none, "created", false,
            none, "processing"⟩], []⟩ 1).result = .error "boom" := by
  exact (kb_process_failure_failed_success_ready
    ⟨.error "boom", fun _ _ t => [t], fun _ => [0], true⟩
    ⟨[⟨1, 2, "qa_knowledge_base", "tok", "req", none, "created", false,
        none, "processing"⟩], []⟩ 1 (by decide)).1 "boom" rfl

theorem chunkIds_getElem (n i : Nat) (h : i < n) :
    (chunkIds n)[i]? = some ("chunk_" ++ natDecimal i) := by
  simp [chunkIds, List.getElem?_range, h]

theorem chunkIds_length (n : Nat) : (chunkIds n).length = n := by
  simp [chunkIds]

theorem processInner_success_shape
    (env : KBEnv) (s : KBState) (bot_id : Nat) (pages chunks : List String)
    (hp : env.pages = .ok pages)
    (hraw : (String.join (pages.map (fun p => p ++ "\n\n"))).data.all
        Char.isWhitespace = false)
    (hc : chunks = env.splitText 1000 100
        (String.join (pages.map (fun p => p ++ "\n\n"))))
    (hchunks : chunks ≠ [])
    (hembed : env.embedOk = true) :
    processInner env s bot_id =
      ⟨.ok (),
        ⟨update_bot_knowledge_status s.bots bot_id "processing",
          chromaAdd
            ((collName bot_id, ⟨[], [], [], some bot_id⟩)
              :: chromaDelete s.chroma (collName bot_id))
            (collName bot_id) (chunks.map env.embedOf) chunks
            (chunkIds chunks.length)⟩,
        [.setStatus bot_id "processing", .extractText, .splitText 1000 100,
          .deleteColl (collName bot_id), .createColl (collName bot_id),
          .embedReq chunks, .collAdd (collName bot_id) chunks.length]⟩ := by
  have hE : ¬ ((env.splitText 1000 100
      (String.join (pages.map (fun p => p ++ "\n\n")))).isEmpty = true) := by
    intro hE
    exact hchunks (by rw [hc]; exact List.isEmpty_iff.mp hE)
  have hCr : chromaCreate (chromaDelete s.chroma (collName bot_id))
      (collName bot_id) bot_id
      = .ok ((collName bot_id, ⟨[], [], [], some bot_id⟩)
          :: chromaDelete s.chroma (collName bot_id)) := by
    unfold chromaCreate
    rw [getColl?_chromaDelete_self]
    rfl
  have hraw2 : ¬ ((String.join (pages.map (fun p => p ++ "\n\n"))).data.all
      Char.isWhitespace = true) := by
    intro hcontr
    rw [hraw] at hcontr
    cases hcontr
  unfold processInner
  rw [hp]
  dsimp only
  rw [if_neg hraw2, if_neg hE, hCr]
  dsimp only
  rw [hembed]
  rw [← hc]
  rfl

/-- C2: on a PDF with non-empty extracted text (and chunks, and a working
embeddings endpoint) the pipeline performs, in order: status update,
per-page text extraction, splitting with `chunk_size=1000` and
`chunk_overlap=100`, deletion of any pre-existing per-bot collection,
creation of a fresh one, a single embeddings request covering all chunks,
and one store of the parallel lists; the stored embeddings, documents and
ids all have length `n = chunks.length`, the ids being exactly
`chunk_0 .. chunk_{n-1}` — independently of whatever collection existed
before. -/
theorem kb_pipeline_success_shape
    (env : KBEnv) (s : KBState) (bot_id : Nat) (pages chunks : List String)
    (hp : env.pages = .ok pages)
    (hraw : (String.join (pages.map (fun p => p ++ "\n\n"))).data.all
        Char.isWhitespace = false)
    (hc : chunks = env.splitText 1000 100
        (String.join (pages.map (fun p => p ++ "\n\n"))))
    (hchunks : chunks ≠ [])
    (hembed : env.embedOk = true) :
    (process_and_store_knowledge_base env s bot_id).result = .ok ()
    ∧ (process_and_store_knowledge_base env s bot_id).events
        = [.setStatus bot_id "processing", .extractText, .splitText 1000 100,
           .deleteColl (collName bot_id), .createColl (collName bot_id),
           .embedReq chunks, .collAdd (collName bot_id) chunks.length,
           .setStatus bot_id "ready"]
    ∧ getColl? (process_and_store_knowledge_base env s bot_id).state.chroma
          (collName bot_id)
        = some ⟨chunks.map env.embedOf, chunks, chunkIds chunks.length,
            some bot_id⟩
    ∧ (chunks.map env.embedOf).length = chunks.length
    ∧ (chunkIds chunks.length).length = chunks.length
    ∧ (∀ i, i < chunks.length →
        (chunkIds chunks.length)[i]? = some ("chunk_" ++ natDecimal i)) := by
  have hinner := processInner_success_shape env s bot_id pages chunks hp hraw
    hc hchunks hembed
  refine ⟨?_, ?_, ?_, ?_, ?_, ?_⟩
  · simp [process_and_store_knowledge_base, hinner]
  · simp [process_and_store_knowledge_base, hinner]
  · simp only [process_and_store_knowledge_base, hinner]
    simp [chromaAdd, getColl?, List.find?_cons]
  · simp
  · exact chunkIds_length chunks.length
  · exact fun i hi => chunkIds_getElem chunks.length i hi

/-- Witness for C2 at a concrete environment: one page `"hello"`, an
identity-style splitter, a constant embedder. -/
theorem kb_pipeline_success_shape_witness :
    (process_and_store_knowledge_base
        ⟨.ok ["hello"], fun _ _ t => [t], fun _ => [1], true⟩
        ⟨[], []⟩ 0).result = .ok ()
    ∧ getColl? (process_and_store_knowledge_base
          ⟨.ok ["hello"], fun _ _ t => [t], fun _ => [1], true⟩
          ⟨[], []⟩ 0).state.chroma (collName 0)
        = some ⟨[["hello\n\n"]].map (fun _ => [1]), ["hello\n\n"],
            chunkIds 1, some 0⟩ := by
  have h := kb_pipeline_success_shape
    ⟨.ok ["hello"], fun _ _ t => [t], fun _ => [1], true⟩
    ⟨[], []⟩ 0 ["hello"] ["hello\n\n"] rfl (by decide) rfl (by decide) rfl
  exact ⟨h.1, h.2.2.1⟩

theorem getColl?_cons_other (db : ChromaDB) (n other : String)
    (c : Collection) (h : other ≠ n) :
    getColl? ((n, c) :: db) other = getColl? db other := by
  have h2 : ¬ n = other := fun he => h he.symm
  simp [getColl?, List.find?_cons, h2]

theorem processInner_chroma_frame (env : KBEnv) (s : KBState) (bot_id : Nat)
    (name : String) (h : name ≠ collName bot_id) :
    getColl? (processInner env s bot_id).state.chroma name
      = getColl? s.chroma name := by
  unfold processInner
  cases env.pages
  · rfl
  · dsimp only
    split
    · rfl
    · split
      · rfl
      · split
        · exact getColl?_chromaDelete_other s.chroma (collName bot_id) name h
        · rename_i chroma2 heq
          have hcr : chroma2
              = (collName bot_id, ⟨[], [], [], some bot_id⟩)
                :: chromaDelete s.chroma (collName bot_id) := by
            unfold chromaCreate at heq
            rw [getColl?_chromaDelete_self] at heq
            simpa using heq.symm
          split
          · dsimp only
            rw [getColl?_chromaAdd_other _ _ _ _ _ _ h, hcr,
              getColl?_cons_other _ _ _ _ h,
              getColl?_chromaDelete_other s.chroma (collName bot_id) name h]
          · dsimp only
            rw [hcr, getColl?_cons_other _ _ _ _ h,
              getColl?_chromaDelete_other s.chroma (collName bot_id) name h]

theorem process_chroma_eq (env : KBEnv) (s : KBState) (bot_id : Nat) :
    (process_and_store_knowledge_base env s bot_id).state.chroma
      = (processInner env s bot_id).state.chroma := by
  unfold process_and_store_knowledge_base
  cases h : (processInner env s bot_id).result <;> simp [h]

theorem query_reads_only (qenv : QueryEnv) (c1 c2 : ChromaDB) (bot_id : Nat)
    (q : String) (n : Nat)
    (h : getColl? c1 (collName bot_id) = getColl? c2 (collName bot_id)) :
    query_knowledge_base qenv c1 bot_id q n
      = query_knowledge_base qenv c2 bot_id q n := by
  unfold query_knowledge_base queryInner get_knowledge_base_collection
  rw [h]

/-- C7: knowledge bases are per-bot.  Ingestion for bot `a` leaves every
collection other than `bot_a_kb` untouched; `query_knowledge_base b`
depends on the store only through the collection `bot_b_kb`; hence for
`a ≠ b` the chunks returned for `b` are identical before and after any
ingestion run for `a`. -/
theorem kb_per_bot_noninterference
    (env : KBEnv) (qenv : QueryEnv) (s : KBState) (a b : Nat)
    (q : String) (n : Nat) (hab : a ≠ b) :
    query_knowledge_base qenv
        (process_and_store_knowledge_base env s a).state.chroma b q n
      = query_knowledge_base qenv s.chroma b q n
    ∧ (∀ name, name ≠ collName a →
        getColl? (process_and_store_knowledge_base env s a).state.chroma name
          = getColl? s.chroma name)
    ∧ (∀ c1 c2 : ChromaDB,
        getColl? c1 (collName b) = getColl? c2 (collName b) →
        query_knowledge_base qenv c1 b q n
          = query_knowledge_base qenv c2 b q n) := by
  have hframe : ∀ name, name ≠ collName a →
      getColl? (process_and_store_knowledge_base env s a).state.chroma name
        = getColl? s.chroma name := by
    intro name hn
    rw [process_chroma_eq]
    exact processInner_chroma_frame env s a name hn
  have hname : collName b ≠ collName a := fun he => hab (collName_inj he).symm
  exact ⟨query_reads_only qenv _ _ b q n (hframe _ hname), hframe,
    fun c1 c2 h => query_reads_only qenv c1 c2 b q n h⟩

/-- Witness for C7: ingesting for bot 0 does not change what bot 1's
query returns over its pre-existing collection. -/
theorem kb_per_bot_noninterference_witness :
    query_knowledge_base ⟨fun _ => [0], true, true, fun _ d => d⟩
        (process_and_store_knowledge_base
          ⟨.ok ["x"], fun _ _ t => [t], fun _ => [0], true⟩
          ⟨[], [("bot_1_kb", ⟨[[1]], ["doc one"], ["chunk_0"], some 1⟩)]⟩
          0).state.chroma 1 "hello" 4
      = query_knowledge_base ⟨fun _ => [0], true, true, fun _ d => d⟩
          [("bot_1_kb", ⟨[[1]], ["doc one"], ["chunk_0"], some 1⟩)] 1
          "hello" 4 :=
  (kb_per_bot_noninterference
    ⟨.ok ["x"], fun _ _ t => [t], fun _ => [0], true⟩
    ⟨fun _ => [0], true, true, fun _ d => d⟩
    ⟨[], [("bot_1_kb", ⟨[[1]], ["doc one"], ["chunk_0"], some 1⟩)]⟩
    0 1 "hello" 4 (by decide)).1

/-- C9: `query_knowledge_base` is total at its interface: it always
returns a plain list (the `except` clause catches everything), of length
at most `n_results`, and that list is empty whenever the bot has no
collection, the query embedding fails, or the similarity query fails. -/
theorem query_total_bounded (qenv : QueryEnv) (chroma : ChromaDB)
    (bot_id : Nat) (q : String) (n_results : Nat) :
    (query_knowledge_base qenv chroma bot_id q n_results).length ≤ n_results
    ∧ (getColl? chroma (collName bot_id) = none →
        query_knowledge_base qenv chroma bot_id q n_results = [])
    ∧ (qenv.embedOk = false →
        query_knowledge_base qenv chroma bot_id q n_results = [])
    ∧ (qenv.queryOk = false →
        query_knowledge_base qenv chroma bot_id q n_results = []) := by
  unfold query_knowledge_base queryInner get_knowledge_base_collection
  cases hc : getColl? chroma (collName bot_id)
  · simp
  · cases he : qenv.embedOk
    · simp
    · cases hq : qenv.queryOk
      · simp
      · refine ⟨?_, ?_, ?_, ?_⟩ <;> simp

/-- Witness for C9: a missing collection yields the empty list. -/
theorem query_total_bounded_witness :
    query_knowledge_base ⟨fun _ => [0], true, true, fun _ d => d⟩ [] 3
      "anything" 4 = [] :=
  (query_total_bounded ⟨fun _ => [0], true, true, fun _ d => d⟩ [] 3
    "anything" 4).2.1 rfl

/-- C10: deleting one knowledge-base file leaves the bot's
`knowledge_base_status` and its vector-store collection untouched while
another PDF remains; only when the deleted file was the last PDF does the
endpoint delete the collection and set the status to `"empty"`. -/
theorem delete_kb_file_frame
    (bots : List BotRow) (chroma : ChromaDB) (files : List String)
    (bot_id : Nat) (file_id : String) (user_id : Nat)
    (out : List BotRow × ChromaDB × List String)
    (h : delete_knowledge_base_file bots chroma files bot_id file_id user_id
        = .ok out) :
    out.2.2 = files.erase file_id
    ∧ ((files.erase file_id).filter isPdfFile ≠ [] →
        out.1 = bots ∧ out.2.1 = chroma)
    ∧ ((files.erase file_id).filter isPdfFile = [] →
        out.2.1 = chromaDelete chroma (collName bot_id)
        ∧ getColl? out.2.1 (collName bot_id) = none
        ∧ out.1 = update_bot_knowledge_status bots bot_id "empty"
        ∧ (get_bot out.1 bot_id).map BotRow.knowledge_base_status
            = some "empty") := by
  unfold delete_knowledge_base_file at h
  cases hgb : get_bot bots bot_id with
  | none => rw [hgb] at h; cases h
  | some b =>
    rw [hgb] at h
    dsimp only at h
    by_cases h1 : (b.owner_id != user_id) = true
    · rw [if_pos h1] at h; cases h
    · rw [if_neg h1] at h
      by_cases h2 : (b.bot_type != "qa_knowledge_base"
          && b.bot_type != "qa_feedback") = true
      · rw [if_pos h2] at h; cases h
      · rw [if_neg h2] at h
        by_cases h3 : (!(files.contains file_id)) = true
        · rw [if_pos h3] at h; cases h
        · rw [if_neg h3] at h
          by_cases h4 : (!(isPdfFile file_id)) = true
          · rw [if_pos h4] at h; cases h
          · rw [if_neg h4] at h
            by_cases h5 : ((files.erase file_id).filter isPdfFile).isEmpty
                = true
            · rw [if_pos h5] at h
              have hout := Except.ok.inj h
              have hempty : (files.erase file_id).filter isPdfFile = [] :=
                List.isEmpty_iff.mp h5
              refine ⟨?_, ?_, ?_⟩
              · rw [← hout]
              · intro hcontra; exact absurd hempty hcontra
              · intro _
                have hbs : (get_bot bots bot_id).isSome := by
                  rw [hgb]; rfl
                rw [← hout]
                refine ⟨rfl, ?_, rfl, ?_⟩
                · exact getColl?_chromaDelete_self chroma (collName bot_id)
                · exact knowledge_status_after_update bots bot_id "empty" hbs
            · rw [if_neg h5] at h
              have hout := Except.ok.inj h
              have hne : (files.erase file_id).filter isPdfFile ≠ [] := by
                intro hnil
                exact h5 (by rw [hnil]; rfl)
              refine ⟨by rw [← hout], fun _ => ⟨by rw [← hout], by rw [← hout]⟩,
                fun hc => absurd hc hne⟩

/-- Witness for C10: deleting the last PDF of bot 7 empties both the
collection and the status. -/
theorem delete_kb_file_frame_witness :
    getColl? (chromaDelete
        [("bot_7_kb", ⟨[[1]], ["d"], ["chunk_0"], some 7⟩)] (collName 7))
      (collName 7) = none
    ∧ (get_bot (update_bot_knowledge_status
          [⟨7, 3, "qa_knowledge_base", "t", "r", none, "created", false,
            none, "ready"⟩] 7 "empty") 7).map
        BotRow.knowledge_base_status = some "empty" := by
  have h := delete_kb_file_frame
    [⟨7, 3, "qa_knowledge_base", "t", "r", none, "created", false, none,
      "ready"⟩]
    [("bot_7_kb", ⟨[[1]], ["d"], ["chunk_0"], some 7⟩)]
    ["a.pdf"] 7 "a.pdf" 3
    (update_bot_knowledge_status
      [⟨7, 3, "qa_knowledge_base", "t", "r", none, "created", false, none,
        "ready"⟩] 7 "empty",
     chromaDelete [("bot_7_kb", ⟨[[1]], ["d"], ["chunk_0"], some 7⟩)]
       (collName 7), [])
    rfl
  have h3 := h.2.2 (by decide)
  exact ⟨h3.2.1, h3.2.2.2⟩

/-- C8: `generate_bot_code` supports exactly the three variants — the two
Q&A variants raise `ValueError` iff the knowledge base is not `"ready"`
(and otherwise always produce code), `simple_chat` ignores the
knowledge-base status entirely and produces code whenever the AI
configuration parses with both keys, every other `bot_type` raises
`NotImplementedError` — and the generate endpoint maps either exception
to an HTTP 400. -/
theorem generate_bot_code_variants (env : GenEnv) (bot_id : Nat)
    (bt req st : String) :
    ((bt = "qa_knowledge_base" ∨ bt = "qa_feedback") →
      ((∃ m, generate_bot_code env bot_id bt req st = .error (.valueError m))
        ↔ st ≠ "ready"))
    ∧ (∀ st1 st2, generate_bot_code env bot_id "simple_chat" req st1
        = generate_bot_code env bot_id "simple_chat" req st2)
    ∧ (∀ d sm sp, env.simpleAI req = some d →
        lookupKey d "start_message" = some sm →
        lookupKey d "chat_system_prompt" = some sp →
        ∃ code, generate_bot_code env bot_id "simple_chat" req st = .ok code)
    ∧ (bt ≠ "qa_knowledge_base" → bt ≠ "qa_feedback" → bt ≠ "simple_chat" →
        generate_bot_code env bot_id bt req st
          = .error (.notImplementedError
              ("Bot type " ++ bt ++ " does not have a generator.")))
    ∧ (∀ bots user_id b e, get_bot bots bot_id = some b →
        b.owner_id = user_id →
        generate_bot_code env b.id b.bot_type b.requirements
          b.knowledge_base_status = .error e →
        ∃ m, generate_bot_code_endpoint env bots bot_id user_id
          = .error (400, m)) := by
  refine ⟨?_, ?_, ?_, ?_, ?_⟩
  · intro hbt
    by_cases hst : st = "ready"
    · subst hst
      constructor
      · intro ⟨m, hm⟩
        rcases hbt with h | h <;> subst h <;> simp [generate_bot_code] at hm
      · intro hcontra; exact absurd rfl hcontra
    · constructor
      · intro _; exact hst
      · intro _
        rcases hbt with h | h <;> subst h
        · exact ⟨"Cannot generate QA bot: The knowledge base is not ready.",
            by simp [generate_bot_code, hst]⟩
        · exact ⟨"Cannot generate QA + Feedback bot: The knowledge base is not ready.",
            by simp [generate_bot_code, hst]⟩
  · intro st1 st2
    simp [generate_bot_code]
  · intro d sm sp hd hsm hsp
    exact ⟨((env.simpleChatTemplate.replace "\x7b\x7bBOT_ID\x7d\x7d"
        (natDecimal bot_id)).replace "\x7b\x7bSTART_MESSAGE\x7d\x7d"
        sm).replace "\x7b\x7bCHAT_SYSTEM_PROMPT\x7d\x7d" sp,
      by simp [generate_bot_code, generate_simple_chat_from_template,
        hd, hsm, hsp]⟩
  · intro h1 h2 h3
    simp [generate_bot_code, h1, h2, h3]
  · intro bots user_id b e hget howner hgen
    have hbe : (b.owner_id != user_id) = false := by simp [howner]
    cases e with
    | valueError m =>
      exact ⟨m, by simp [generate_bot_code_endpoint, hget, hbe, hgen]⟩
    | notImplementedError m =>
      exact ⟨m, by simp [generate_bot_code_endpoint, hget, hbe, hgen]⟩

/-- Witness for C8: with the knowledge base still `"empty"`, generating a
`qa_knowledge_base` bot raises `ValueError`; and an unknown bot type
raises `NotImplementedError`. -/
theorem generate_bot_code_variants_witness :
    (∃ m, generate_bot_code
        ⟨fun _ _ => none, fun _ _ => none, fun _ => none, "qa", "qafb",
          "sc", "pv"⟩ 1 "qa_knowledge_base" "reqs" "empty"
      = .error (.valueError m))
    ∧ generate_bot_code
        ⟨fun _ _ => none, fun _ _ => none, fun _ => none, "qa", "qafb",
          "sc", "pv"⟩ 1 "echo_bot" "reqs" "ready"
      = .error (.notImplementedError
          ("Bot type " ++ "echo_bot" ++ " does not have a generator.")) := by
  constructor
  · exact ((generate_bot_code_variants
      ⟨fun _ _ => none, fun _ _ => none, fun _ => none, "qa", "qafb",
        "sc", "pv"⟩ 1 "qa_knowledge_base" "reqs" "empty").1
      (Or.inl rfl)).mpr (by decide)
  · exact (generate_bot_code_variants
      ⟨fun _ _ => none, fun _ _ => none, fun _ => none, "qa", "qafb",
        "sc", "pv"⟩ 1 "echo_bot" "reqs" "ready").2.2.2.1
      (by decide) (by decide) (by decide)

/-- C3, evaluated at a failing input (bot 1 owned by user 7, generated
code present, fresh OS pid 4242): the deploy endpoint succeeds but stores
`None` as the row's pid — `BotManager.deploy_bot` has no `return`
statement — while the manager holds the subprocess under the string key
`str(bot.id)` with its real pid; and the stop endpoint raises `TypeError`
(`stop_bot` has no parameter named `pid`), so the subprocess is never
terminated, the pid never cleared, `is_running` never reset. -/
theorem deploy_stop_endpoints_behavior :
    deploy_bot_endpoint
        [⟨1, 7, "simple_chat", "tok", "req", some "code", "generated",
          false, none, "empty"⟩] ⟨[], []⟩ 1 7 4242
      = .ok ([⟨1, 7, "simple_chat", "tok", "req", some "code", "running",
            true, none, "empty"⟩],
          ⟨[(PyKey.s (natDecimal 1), 4242)], []⟩)
    ∧ (manager_deploy_bot ⟨[], []⟩ (natDecimal 1) 4242).1 = none
    ∧ stop_bot_endpoint
        [⟨1, 7, "simple_chat", "tok", "req", some "code", "running",
          true, none, "empty"⟩] ⟨[(PyKey.s (natDecimal 1), 4242)], []⟩ 1 7
      = .error (500,
          "TypeError: stop_bot got an unexpected keyword argument pid")
    ∧ (stop_bot_endpoint
        [⟨1, 7, "simple_chat", "tok", "req", some "code", "running",
          true, none, "empty"⟩] ⟨[(PyKey.s (natDecimal 1), 4242)], []⟩
        1 7).isOk = false :=
  ⟨rfl, rfl, rfl, rfl⟩

/-- C4: the only ORM mapping of the `bots` table,
`class Bot(Base)` in `src/bots/schema.py`, declares none of the four
columns the claim names — nor any of the attributes the CRUD layer
reads and writes. -/
theorem bots_schema_missing_columns :
    "requirements" ∉ botTableColumns
    ∧ "bot_token" ∉ botTableColumns
    ∧ "generated_code" ∉ botTableColumns
    ∧ "status" ∉ botTableColumns
    ∧ crudBotAttributes.all
        (fun a => !(botTableColumns.contains a)) = true := by
  decide

/-- C5, evaluated at a failing input: the IP `203.0.113.5` has a
rate-limit row with `request_count = 3` inside the 60-minute window, so
`check_rate_limit` — the configured limit — would reject the request; yet
`register` (whose `validate_registration_security` call is commented out)
succeeds and creates the pending user. -/
theorem register_ignores_rate_limit :
    (check_rate_limit 1010 [⟨1, "203.0.113.5", "register", 3, 1000, 1000⟩]
      "203.0.113.5" "register" 99).1.1 = false
    ∧ (register ⟨fun p => "h" ++ p, "tok123", true, 11, 21⟩ 1010
        ⟨[], [], [], [⟨1, "203.0.113.5", "register", 3, 1000, 1000⟩]⟩
        ⟨"new@example.com", "pw", none⟩ "203.0.113.5").1 = .ok ()
    ∧ ((register ⟨fun p => "h" ++ p, "tok123", true, 11, 21⟩ 1010
        ⟨[], [], [], [⟨1, "203.0.113.5", "register", 3, 1000, 1000⟩]⟩
        ⟨"new@example.com", "pw", none⟩ "203.0.113.5").2.pending.map
          PendingUserRow.email) = ["new@example.com"]
    ∧ (register ⟨fun p => "h" ++ p, "tok123", true, 11, 21⟩ 1010
        ⟨[], [], [], [⟨1, "203.0.113.5", "register", 3, 1000, 1000⟩]⟩
        ⟨"new@example.com", "pw", none⟩ "203.0.113.5").2.users = [] :=
  ⟨rfl, rfl, rfl, rfl⟩

/-- C6: unconfirmed registrations stay out of the `users` table — the
register handler never modifies `users` (success or not) and, on success,
adds exactly one pending row; a confirmed `User` row is created only by
`verify_email_token` succeeding on an unused, unexpired token tied to a
pending user, and the user it creates is verified and its pending row
deleted. -/
theorem pending_user_separation
    (env : RegEnv) (now : Int) (st : AuthState) (u : RegisterIn) (ip : String)
    (nowv : Int) (fresh : Nat) (stv : AuthState) (token : String) :
    ((register env now st u ip).2.users = st.users)
    ∧ ((register env now st u ip).1 = .ok () →
        (register env now st u ip).2.pending
          = cleanup_expired_pending_users now st.pending
            ++ [⟨env.freshPendingId, u.email, env.hash u.password,
                 u.full_name, now + EMAIL_VERIFICATION_EXPIRE_MINUTES * 2,
                 some ip⟩])
    ∧ ((verify_email_token nowv fresh stv token).2.users.length
          ≠ stv.users.length →
        ∃ v ∈ stv.verifications,
          (v.verification_token = token ∧ v.is_used = false
            ∧ nowv < v.expires_at ∧ v.pending_user_id.isSome = true)
          ∧ ∃ p ∈ stv.pending, some p.id = v.pending_user_id
            ∧ (verify_email_token nowv fresh stv token).1.1 = true
            ∧ (verify_email_token nowv fresh stv token).2.users
                = stv.users
                  ++ [⟨fresh, p.email, p.hashed_password, p.full_name,
                       true, true⟩]
            ∧ p ∉ (verify_email_token nowv fresh stv token).2.pending) := by
  refine ⟨?_, ?_, ?_⟩
  · unfold register
    dsimp only
    split
    · rfl
    · split
      · rfl
      · split
        · rfl
        · rfl
  · intro hsucc
    cases h1 : get_user_by_email st.users u.email with
    | some u0 =>
      have hr : (register env now st u ip).1
          = .error (422, "Email address is already registered") := by
        simp only [register, h1]
      rw [hr] at hsucc
      exact Except.noConfusion hsucc
    | none =>
      cases h2 : get_pending_user_by_email
          (cleanup_expired_pending_users now st.pending) u.email with
      | some p0 =>
        have hr : (register env now st u ip).1
            = .error (422, "Email address is already registered") := by
          simp only [register, h1, h2]
        rw [hr] at hsucc
        exact Except.noConfusion hsucc
      | none =>
        cases hE : env.emailOk with
        | false =>
          have hr : (register env now st u ip).1
              = .error (500, "Could not send the verification email") := by
            simp [register, h1, h2,
              send_verification_email_for_pending_user, hE]
          rw [hr] at hsucc
          exact Except.noConfusion hsucc
        | true =>
          simp [register, h1, h2, create_pending_user,
            send_verification_email_for_pending_user, hE]
  · intro hgrow
    unfold verify_email_token at hgrow ⊢
    cases hv : stv.verifications.find? (fun v => v.verification_token == token
        && (!v.is_used && (decide (nowv < v.expires_at)
        && v.pending_user_id.isSome))) with
    | none =>
      exfalso
      apply hgrow
      rw [hv]
      dsimp only
      cases hv2 : stv.verifications.find? (fun v =>
          v.verification_token == token && (!v.is_used
          && (decide (nowv < v.expires_at) && v.user_id.isSome))) with
      | none => rfl
      | some v =>
        dsimp only
        cases hu : stv.users.find? (fun u0 => some u0.id == v.user_id) with
        | none => rfl
        | some u0 =>
          dsimp only
          by_cases hver : u0.is_verified = true
          · rw [if_pos hver]
          · rw [if_neg hver]
            dsimp only
            simp
    | some v =>
      rw [hv] at hgrow
      dsimp only at hgrow ⊢
      have hvmem : v ∈ stv.verifications := List.mem_of_find?_eq_some hv
      have hvpred := List.find?_some hv
      simp only [Bool.and_eq_true, beq_iff_eq, Bool.not_eq_true',
        decide_eq_true_eq] at hvpred
      obtain ⟨hvt, hvu, hve, hvp⟩ := hvpred
      cases hp : stv.pending.find? (fun p => some p.id == v.pending_user_id)
        with
      | none =>
        rw [hp] at hgrow
        exact absurd rfl hgrow
      | some p =>
        rw [hp] at hgrow
        dsimp only at hgrow ⊢
        have hpmem : p ∈ stv.pending := List.mem_of_find?_eq_some hp
        have hppred := List.find?_some hp
        simp only [beq_iff_eq] at hppred
        cases hu : stv.users.find? (fun u0 => u0.email == p.email) with
        | some u0 =>
          rw [hu] at hgrow
          exact absurd rfl hgrow
        | none =>
          rw [hu] at hgrow
          dsimp only at hgrow ⊢
          refine ⟨v, hvmem, ⟨hvt, hvu, hve, hvp⟩, p, hpmem, hppred, rfl,
            rfl, ?_⟩
          intro hmem
          have := (List.mem_filter.mp hmem).2
          simp at this

/-- Witness for C6 at a concrete state: a successful registration leaves
the (empty) users table empty and inserts the one pending row. -/
theorem pending_user_separation_witness :
    (register ⟨fun p => "h" ++ p, "tk", true, 5, 6⟩ 100
        ⟨[], [], [], []⟩ ⟨"a@b.co", "pw", none⟩ "ip1").2.users = []
    ∧ (register ⟨fun p => "h" ++ p, "tk", true, 5, 6⟩ 100
        ⟨[], [], [], []⟩ ⟨"a@b.co", "pw", none⟩ "ip1").2.pending
      = cleanup_expired_pending_users 100 []
        ++ [⟨5, "a@b.co", "hpw", none,
             100 + EMAIL_VERIFICATION_EXPIRE_MINUTES * 2, some "ip1"⟩] := by
  have h := pending_user_separation ⟨fun p => "h" ++ p, "tk", true, 5, 6⟩
    100 ⟨[], [], [], []⟩ ⟨"a@b.co", "pw", none⟩ "ip1" 0 0 ⟨[], [], [], []⟩
    "t"
  exact ⟨h.1, h.2.1 rfl⟩

end Chaat
